import Mathlib

/-!
Verification of the desktop-shell startup logic in
`src/frontend/src-tauri/src/lib.rs` (function `run`).

The source registers the shell plugin, then in its setup callback:
  * if `cfg!(debug_assertions)` holds, it registers the log plugin on the
    app handle, propagating a registration error with `?`;
  * under `#[cfg(not(debug_assertions))]` (release) it resolves the sidecar
    command `"binaries/backend"` via `shell.sidecar(..)` and, on `Ok`,
    calls `sidecar.spawn()`, logging one info event on success and one
    error event on either failure;
  * under `#[cfg(debug_assertions)]` (development) it logs one info event
    telling the operator to start the backend manually;
  * finally it returns `Ok(())`, and the builder enters the event loop.

The embedding below models the host responses (plugin registration,
sidecar resolution, spawn) as an environment of `Except` values and the
setup callback as a pure function of that environment, recording into a
trace every log event, every execution of the supervision block, every
spawn attempt, and the entry into the host event loop.
-/

namespace JiraShell

/-- Compile-time build mode: `debug_assertions` on (dev) or off (release). -/
inductive BuildMode where
  | dev
  | release
deriving DecidableEq, Repr

/-- Log levels used by the source (`log::info!` and `log::error!`). -/
inductive Level where
  | info
  | error
deriving DecidableEq, Repr

/-- The pair returned by a successful `sidecar.spawn()`: the stream
receiver `_rx` and the process-control child token `_child`, modelled as
opaque numeric tokens. -/
structure SidecarHandles where
  rx : Nat
  child : Nat
deriving DecidableEq, Repr

/-- Observable steps of one shell lifetime. -/
inductive Event where
  | logged (level : Level) (msg : String)
  | superviseInvoked
  | spawnAttempted
  | eventLoopEntered
deriving DecidableEq, Repr

/-- Host responses consumed by `run`: the outcome of registering the log
plugin (`app.handle().plugin(..)`), of resolving the sidecar command
(`shell.sidecar("binaries/backend")`, payload elided since the command is
consumed immediately), and of spawning it (`sidecar.spawn()`). -/
structure HostEnv where
  attachLogPlugin : Except String Unit
  sidecarResolve : Except String Unit
  sidecarSpawn : Except String SidecarHandles
deriving Repr

/-- The dev-mode informational message from the source. -/
def devModeMsg : String :=
  "Debug mode: backend should be started manually with \x27uvicorn app.main:app --reload\x27"

/-- The info message logged on a successful spawn. -/
def sidecarOkMsg : String := "Backend sidecar started successfully"

/-- The error message logged when `sidecar.spawn()` fails, with its cause. -/
def spawnFailMsg (e : String) : String := "Failed to start backend sidecar: " ++ e

/-- The error message logged when `shell.sidecar(..)` fails, with its cause. -/
def resolveFailMsg (e : String) : String := "Failed to create sidecar command: " ++ e

/-- Result of the supervision block as observed by the spec's
`SupervisionOutcome`. -/
inductive SupervisionOutcome where
  | started (h : SidecarHandles)
  | resolveFailed (e : String)
  | spawnFailed (e : String)
deriving DecidableEq, Repr

/-- What the supervision block leaves behind: its trace, its outcome, and
any sidecar handles still held when the block ends. -/
structure SuperviseResult where
  events : List Event
  outcome : SupervisionOutcome
  retained : Option SidecarHandles
deriving DecidableEq, Repr

/-- The release-only supervision block (lines 16-35 of the source): match
on `shell.sidecar("binaries/backend")`; on `Ok`, match on
`sidecar.spawn()`.  The success arm binds `(_rx, _child)` and only logs:
the handles go out of scope at the end of the arm, so nothing is retained
past the block.  The block reads no mutable state. -/
def superviseBlock (env : HostEnv) : SuperviseResult :=
  match env.sidecarResolve with
  | .ok _ =>
    match env.sidecarSpawn with
    | .ok h =>
      { events := [.superviseInvoked, .spawnAttempted, .logged .info sidecarOkMsg]
        outcome := .started h
        retained := none }
    | .error e =>
      { events := [.superviseInvoked, .spawnAttempted, .logged .error (spawnFailMsg e)]
        outcome := .spawnFailed e
        retained := none }
  | .error e =>
    { events := [.superviseInvoked, .logged .error (resolveFailMsg e)]
      outcome := .resolveFailed e
      retained := none }

/-- Result of the setup callback: its trace, its `Result` value, and any
sidecar handles the shell still holds when setup returns. -/
structure SetupResult where
  events : List Event
  result : Except String Unit
  retained : Option SidecarHandles
deriving Repr

/-- The setup callback. `if cfg!(debug_assertions)` registers the log
plugin, with `?` propagating its error; the release-only block supervises
the sidecar; the dev-only block logs the manual-startup message; setup
then returns `Ok(())`. -/
def setup (mode : BuildMode) (env : HostEnv) : SetupResult :=
  match (if mode = .dev then env.attachLogPlugin else .ok ()) with
  | .error e => { events := [], result := .error e, retained := none }
  | .ok _ =>
    match mode with
    | .release =>
      let s := superviseBlock env
      { events := s.events, result := .ok (), retained := s.retained }
    | .dev =>
      { events := [.logged .info devModeMsg], result := .ok (), retained := none }

/-- The whole of `run`, up to event-loop entry: `tauri::Builder::run`
invokes the setup callback during application initialization and enters
the event loop only after setup returns `Ok`; a setup error aborts the
run (the source then panics via `.expect`).  Returns the trace of the
shell lifetime and the run outcome. -/
def run (mode : BuildMode) (env : HostEnv) : List Event × Except String Unit :=
  let s := setup mode env
  match s.result with
  | .ok _ => (s.events ++ [.eventLoopEntered], .ok ())
  | .error e => (s.events, .error e)

/-- Number of spawn attempts recorded in a trace. -/
def spawnAttempts (es : List Event) : Nat :=
  es.countP fun e =>
    match e with
    | .spawnAttempted => true
    | _ => false

/-- Number of executions of the supervision block recorded in a trace. -/
def superviseInvocations (es : List Event) : Nat :=
  es.countP fun e =>
    match e with
    | .superviseInvoked => true
    | _ => false

/-- The log events of a trace, as level-message pairs, in order. -/
def loggedEvents : List Event → List (Level × String)
  | [] => []
  | .logged l m :: es => (l, m) :: loggedEvents es
  | _ :: es => loggedEvents es

/-- A second invocation of the supervision block within one shell
lifetime, modelled by executing the (stateless) block twice in sequence;
the components are the first and second invocation results. -/
def superviseTwice (env : HostEnv) : SuperviseResult × SuperviseResult :=
  (superviseBlock env, superviseBlock env)

/-- Environment in which every host operation succeeds. -/
def envAllOk : HostEnv :=
  { attachLogPlugin := .ok ()
    sidecarResolve := .ok ()
    sidecarSpawn := .ok { rx := 0, child := 0 } }

/-- Environment in which sidecar-command resolution fails. -/
def envResolveFail : HostEnv :=
  { attachLogPlugin := .ok ()
    sidecarResolve := .error "binaries/backend not found"
    sidecarSpawn := .error "unreachable" }

end JiraShell

namespace JiraShell

/-- C1 counterexample: in a release lifetime in which sidecar-command
resolution fails, no spawn is attempted, refuting the claim that every
release lifetime attempts a spawn. -/
theorem c1_release_spawn_counterexample :
    Event.spawnAttempted ∉ (setup .release envResolveFail).events := by
  decide

/-- C1 amended: a release build attempts a spawn exactly when sidecar
resolution succeeds; a development build never attempts a spawn, and it
emits the manual-startup informational log exactly when log-plugin
attachment succeeds. -/
theorem c1_build_mode_partitioning (env : HostEnv) :
    (Event.spawnAttempted ∈ (setup .release env).events ↔
      env.sidecarResolve = .ok ()) ∧
    Event.spawnAttempted ∉ (setup .dev env).events ∧
    (Event.logged .info devModeMsg ∈ (setup .dev env).events ↔
      env.attachLogPlugin = .ok ()) := by
  obtain ⟨a, r, s⟩ := env
  cases a <;> cases r <;> cases s <;>
    simp [setup, superviseBlock]

/-- C2: in a release build every terminal outcome of the supervision
produces exactly one log event, of the prescribed level and content: an
info event on a successful spawn, an error event naming the failure kind
and its cause on a resolve or spawn failure. -/
theorem c2_one_log_per_outcome (env : HostEnv) :
    loggedEvents (setup .release env).events =
      match env.sidecarResolve, env.sidecarSpawn with
      | .ok _, .ok _ => [(.info, sidecarOkMsg)]
      | .ok _, .error e => [(.error, spawnFailMsg e)]
      | .error e, _ => [(.error, resolveFailMsg e)] := by
  obtain ⟨a, r, s⟩ := env
  cases r <;> cases s <;> rfl

/-- C3: no outcome of the release-mode supervision is fatal: setup
returns `Ok` and the shell continues to the event loop for every host
environment. -/
theorem c3_sidecar_failure_nonfatal (env : HostEnv) :
    (setup .release env).result = .ok () ∧
    Event.eventLoopEntered ∈ (run .release env).fst := by
  obtain ⟨a, r, s⟩ := env
  cases r <;> cases s <;> simp [setup, superviseBlock, run]

/-- C4: in a development build the setup result is exactly the log-plugin
registration result — an attachment error is returned to the host as the
setup error — and the setup body past that point (which emits the dev
log) runs exactly when attachment succeeds. -/
theorem c4_attach_failure_fatal (env : HostEnv) :
    (setup .dev env).result = env.attachLogPlugin ∧
    ((setup .dev env).events ≠ [] ↔ env.attachLogPlugin = .ok ()) := by
  obtain ⟨a, r, s⟩ := env
  cases a <;> simp [setup]

/-- C5: at most one spawn is attempted per shell lifetime, in either
build mode and for every outcome of name resolution. -/
theorem c5_single_spawn (mode : BuildMode) (env : HostEnv) :
    spawnAttempts (run mode env).fst ≤ 1 := by
  obtain ⟨a, r, s⟩ := env
  cases mode <;> cases a <;> cases r <;> cases s <;>
    simp [run, setup, superviseBlock, spawnAttempts]

/-- C6 counterexample: executing the supervision block a second time in an
environment where every host operation succeeds attempts a spawn and
returns `Started`; the code has no `AlreadyRunning` guard, refuting the
claim that a second invocation returns `SpawnFailed(AlreadyRunning)`
without attempting a spawn. -/
theorem c6_second_invocation_counterexample :
    Event.spawnAttempted ∈ (superviseTwice envAllOk).snd.events ∧
    (superviseTwice envAllOk).snd.outcome =
      .started { rx := 0, child := 0 } := by
  decide

/-- C6 amended: within one shell lifetime the supervision block executes
exactly once (the setup callback is invoked once by the host), and the
block is stateless, so a second execution would behave exactly like the
first — repeating the resolve-and-spawn sequence — rather than return
`SpawnFailed(AlreadyRunning)`. -/
theorem c6_single_invocation_no_guard (env : HostEnv) :
    superviseInvocations (run .release env).fst = 1 ∧
    (superviseTwice env).snd = (superviseTwice env).fst := by
  refine ⟨?_, rfl⟩
  obtain ⟨a, r, s⟩ := env
  cases r <;> cases s <;>
    simp [run, setup, superviseBlock, superviseInvocations]

/-- C7: ordered startup: the setup callback (release supervision, or the
dev informational log) runs to completion before the event loop is
entered — the lifetime trace is the setup trace followed by event-loop
entry when setup succeeds, and no event-loop entry occurs inside setup. -/
theorem c7_setup_before_event_loop (mode : BuildMode) (env : HostEnv) :
    Event.eventLoopEntered ∉ (setup mode env).events ∧
    (run mode env).fst =
      (setup mode env).events ++
        (match (setup mode env).result with
         | .ok _ => [Event.eventLoopEntered]
         | .error _ => []) := by
  obtain ⟨a, r, s⟩ := env
  cases mode <;> cases a <;> cases r <;> cases s <;>
    simp [run, setup, superviseBlock]

/-- C8 counterexample: in the all-successful release lifetime, setup
retains no sidecar handles — the success arm binds `(_rx, _child)` and
drops them when the arm ends — refuting the claim that the handles are
held for the remainder of the shell process lifetime. -/
theorem c8_retention_counterexample :
    (setup .release envAllOk).retained = none := by
  decide

/-- C8 amended: the sidecar handles never outlive the setup callback: in
every build mode and environment, setup returns holding no handles; child
cleanup is delegated to the host runtime. -/
theorem c8_no_handles_retained (mode : BuildMode) (env : HostEnv) :
    (setup mode env).retained = none := by
  obtain ⟨a, r, s⟩ := env
  cases mode <;> cases a <;> cases r <;> cases s <;> rfl

/-- C10: release setup is infallible: it returns `Ok(())` for every host
environment, since the fallible log-plugin registration runs only when
`debug_assertions` is on. -/
theorem c10_release_setup_infallible (env : HostEnv) :
    (setup .release env).result = .ok () := by
  obtain ⟨a, r, s⟩ := env
  cases r <;> cases s <;> rfl

end JiraShell
